import Mathlib

/-!
Verification of the astronomy module of sdrangel (the Astronomy class and the
PAL and ERFA routines embedded in czml.cpp), shallowly embedded over exact
real arithmetic: C doubles become real numbers and C library functions become
their mathematical counterparts.  Mathlib total-function conventions apply:
division by zero yields zero, and arcsin and arccos clamp arguments outside
the interval from -1 to 1 (where C would produce NaN).
-/

open Real

namespace Astro

/-- Modelled from the spec: the degrees-to-radians helper of util/units.h
(the angle/unit utility layer described as an external collaborator). -/
noncomputable def degreesToRadians (x : ℝ) : ℝ := x * π / 180

/-- Modelled from the spec: the radians-to-degrees helper of util/units.h. -/
noncomputable def radiansToDegrees (x : ℝ) : ℝ := x * 180 / π

/-- Rounding toward zero, as C double-to-integer truncation. -/
noncomputable def rtrunc (x : ℝ) : ℤ := if 0 ≤ x then ⌊x⌋ else ⌈x⌉

/-- The C library fmod: a - b * trunc (a / b), a remainder with the sign of a. -/
noncomputable def cfmod (a b : ℝ) : ℝ := a - b * (rtrunc (a / b) : ℝ)

/-- The C library atan2 with its quadrant conventions (range (-pi, pi]). -/
noncomputable def atan2 (y x : ℝ) : ℝ :=
  if 0 < x then arctan (y / x)
  else if x < 0 then
    (if 0 ≤ y then arctan (y / x) + π else arctan (y / x) - π)
  else if 0 < y then π / 2
  else if y < 0 then -(π / 2)
  else 0

/-- A UTC wall-clock date and time, the content of a QDateTime already
normalized to UTC (Astronomy::julianDate(QDateTime) converts to UTC first
and then reads the calendar fields). -/
structure DateTime where
  year : ℤ
  month : ℤ
  day : ℤ
  hour : ℤ
  minute : ℤ
  second : ℤ

/-- Right ascension (decimal hours) and declination (decimal degrees). -/
structure RADec where
  ra : ℝ
  dec : ℝ

/-- Azimuth and altitude, decimal degrees. -/
structure AzAlt where
  az : ℝ
  alt : ℝ

/-- The integer Julian day number part of Astronomy::julianDate, with C
truncating integer division. -/
def julianDay (year month day : ℤ) : ℤ :=
  (Int.tdiv (1461 * (year + 4800 + Int.tdiv (month - 14) 12)) 4)
    + (Int.tdiv (367 * (month - 2 - 12 * Int.tdiv (month - 14) 12)) 12)
    - (Int.tdiv (3 * (Int.tdiv (year + 4900 + Int.tdiv (month - 14) 12) 100)) 4)
    + day - 32075

/-- Astronomy::julianDate(year, month, day, hours, minutes, seconds). -/
noncomputable def julianDate (year month day hours minutes seconds : ℤ) : ℝ :=
  (julianDay year month day : ℝ)
    + ((hours : ℝ) / 24 - 0.5) + (minutes : ℝ) / (24 * 60)
    + (seconds : ℝ) / (24 * 60 * 60)

/-- Astronomy::julianDate(QDateTime): read the UTC calendar fields. -/
noncomputable def julianDateDT (dt : DateTime) : ℝ :=
  julianDate dt.year dt.month dt.day dt.hour dt.minute dt.second

/-- Astronomy::jd_j2000(): julianDate(2000, 1, 1, 12, 0, 0) (memoization of
the constant is irrelevant to the value). -/
noncomputable def jd_j2000 : ℝ := julianDate 2000 1 1 12 0 0

/-- Astronomy::jd_b1950(): julianDate(1949, 12, 31, 22, 9, 0). -/
noncomputable def jd_b1950 : ℝ := julianDate 1949 12 31 22 9 0

/-- Astronomy::modulo: a - b * floor (a / b), needs to work for negative a. -/
noncomputable def modulo (a b : ℝ) : ℝ := a - b * (⌊a / b⌋ : ℝ)

/-- Astronomy::precess: rotate an RA/Dec between two epochs. -/
noncomputable def precess (rd_in : RADec) (jd_from jd_to : ℝ) : RADec :=
  let days_per_century : ℝ := 36524.219878
  let t0 := (jd_from - jd_b1950) / days_per_century
  let t := (jd_to - jd_from) / days_per_century
  let rot00 := 1 - ((29696 + 26 * t0) * t * t - 13 * t * t * t) * 0.00000001
  let rot10 := ((2234941 + 1355 * t0) * t - 676 * t * t + 221 * t * t * t) * 0.00000001
  let rot20 := ((971690 - 414 * t0) * t + 207 * t * t + 96 * t * t * t) * 0.00000001
  let rot01 := -rot10
  let rot11 := 1 - ((24975 + 30 * t0) * t * t - 15 * t * t * t) * 0.00000001
  let rot21 := -((10858 + 2 * t0) * t * t) * 0.00000001
  let rot02 := -rot20
  let rot12 := rot21
  let rot22 := 1 - ((4721 - 4 * t0) * t * t) * 0.00000001
  let ra_deg := rd_in.ra * (360 / 24)
  let ra_rad := degreesToRadians ra_deg
  let dec_rad := degreesToRadians rd_in.dec
  let x := cos ra_rad * cos dec_rad
  let y := sin ra_rad * cos dec_rad
  let z := sin dec_rad
  let xp := rot00 * x + rot01 * y + rot02 * z
  let yp := rot10 * x + rot11 * y + rot12 * z
  let zp := rot20 * x + rot21 * y + rot22 * z
  let ra1 := radiansToDegrees (arctan (yp / xp))
  let ra2 := if xp < 0 then ra1 + 180 else if yp < 0 ∧ 0 < xp then ra1 + 360 else ra1
  ⟨ra2 / (360 / 24), radiansToDegrees (arcsin zp)⟩

/-- The argument of the final fmod of Astronomy::localSiderealTime. -/
noncomputable def lstArg (dt : DateTime) (longitude : ℝ) : ℝ :=
  let jd := julianDateDT dt
  let d := jd - jd_j2000
  let f := cfmod jd 1
  let ut := (f + 0.5) * 24
  100.46 + 0.985647 * d + longitude + (360 / 24) * ut

/-- Astronomy::localSiderealTime: local mean sidereal time in degrees. -/
noncomputable def localSiderealTime (dt : DateTime) (longitude : ℝ) : ℝ :=
  cfmod (lstArg dt longitude) 360

/-- Astronomy::raDecToAzAlt: J2000 (or Jnow) RA/Dec to Az/Alt. -/
noncomputable def raDecToAzAlt (rd0 : RADec) (latitude longitude : ℝ)
    (dt : DateTime) (j2000 : Bool) : AzAlt :=
  let jd := julianDateDT dt
  let rd := if j2000 then precess rd0 jd_j2000 jd else rd0
  let lst_deg := localSiderealTime dt longitude
  let ra_deg := rd.ra * (360 / 24)
  let ha := cfmod (lst_deg - ra_deg) 360
  let dec_rad := degreesToRadians rd.dec
  let lat_rad := degreesToRadians latitude
  let ha_rad := degreesToRadians ha
  let alt_rad := arcsin (sin dec_rad * sin lat_rad + cos dec_rad * cos lat_rad * cos ha_rad)
  let a := radiansToDegrees
    (arccos ((sin dec_rad - sin alt_rad * sin lat_rad) / (cos alt_rad * cos lat_rad)))
  let az := if sin ha_rad < 0 then a else 360 - a
  ⟨az, radiansToDegrees alt_rad⟩

/-- Astronomy::azAltToRaDec: Az/Alt to Jnow RA/Dec (the dormant acos-based
hour-angle branch is behind if(0) in the source and is omitted; the active
atan2 path is translated). -/
noncomputable def azAltToRaDec (aa : AzAlt) (latitude longitude : ℝ)
    (dt : DateTime) : RADec :=
  let lst_deg := localSiderealTime dt longitude
  let alt_rad := degreesToRadians aa.alt
  let az_rad := degreesToRadians aa.az
  let lat_rad := degreesToRadians latitude
  let sin_dec_rad := sin lat_rad * sin alt_rad + cos lat_rad * cos alt_rad * cos az_rad
  let dec_rad := arcsin sin_dec_rad
  let y := -(cos alt_rad) * cos lat_rad * sin az_rad
  let x := sin alt_rad - sin lat_rad * sin_dec_rad
  let ha_rad := atan2 y x
  let ha_deg := radiansToDegrees ha_rad
  ⟨modulo ((lst_deg - ha_deg) / (360 / 24)) 24, radiansToDegrees dec_rad⟩

/-- Astronomy::dopplerToVelocity with m_speedOfLight = 299792458. -/
noncomputable def dopplerToVelocity (f f0 : ℝ) : ℝ :=
  299792458 * f / f0 - 299792458

/-- Astronomy::velocityToDoppler. -/
noncomputable def velocityToDoppler (v f0 : ℝ) : ℝ :=
  f0 * (v + 299792458) / 299792458

/-- Astronomy::azAltToXY85: forward stereographic projection, "85" convention.
Faithful to the source, including its guard on az == 0 (whose inner
comparisons against 90 and 270 are consequently unreachable) and the
unguarded cotangent term cos(elr)/sin(elr) in the other branch. -/
noncomputable def azAltToXY85 (aa : AzAlt) : ℝ × ℝ :=
  if aa.alt = 90 then (0, 0)
  else
    let az0 := aa.az
    let az1 := if az0 ≥ 360 then az0 - 360 else az0
    let p : ℝ × ℝ :=
      if aa.alt > 90 then (if az1 ≥ 180 then az1 - 180 else az1 + 180, 180 - aa.alt)
      else (az1, aa.alt)
    let az := p.1
    let el := p.2
    let azr := degreesToRadians az
    let elr := degreesToRadians el
    let y := radiansToDegrees (arcsin (cos elr * sin azr))
    let x :=
      if az = 0 then
        (if az = 90 ∨ az = 270 then 0
         else if az > 90 ∧ az < 270 then 90
         else -90)
      else radiansToDegrees (arctan (-(cos elr / sin elr) * cos azr))
    (x, y)

/-- Astronomy::azAltToXY30: forward stereographic projection, "30" convention
(this one guards its cotangent on el == 0). -/
noncomputable def azAltToXY30 (aa : AzAlt) : ℝ × ℝ :=
  if aa.alt = 90 then (0, 0)
  else
    let az0 := aa.az
    let az1 := if az0 ≥ 360 then az0 - 360 else az0
    let p : ℝ × ℝ :=
      if aa.alt > 90 then (if az1 ≥ 180 then az1 - 180 else az1 + 180, 180 - aa.alt)
      else (az1, aa.alt)
    let az := p.1
    let el := p.2
    let azr := degreesToRadians az
    let elr := degreesToRadians el
    let y := radiansToDegrees (arcsin (cos elr * cos azr))
    let x :=
      if el = 0 then
        (if az = 0 ∨ az = 180 then 0
         else if az ≥ 0 ∧ az ≤ 180 then 90
         else -90)
      else radiansToDegrees (arctan ((cos elr / sin elr) * sin azr))
    (x, y)

/-- Astronomy::xy85ToAzAlt: inverse stereographic projection, "85". -/
noncomputable def xy85ToAzAlt (x y : ℝ) : AzAlt :=
  if x = 0 ∧ y = 0 then ⟨0, 90⟩
  else
    let xr := degreesToRadians x
    let yr := degreesToRadians y
    let elr := arcsin (cos yr * cos xr)
    let azr :=
      if x = 0 then (if y ≥ 0 then π / 2 else 2 * π * 3 / 4)
      else if y = 90 then π / 2
      else if y = -90 then 2 * π * 3 / 4
      else atan2 (-(tan yr)) (sin xr) + π
    ⟨radiansToDegrees azr, radiansToDegrees elr⟩

/-- Astronomy::xy30ToAzAlt: inverse stereographic projection, "30". -/
noncomputable def xy30ToAzAlt (x y : ℝ) : AzAlt :=
  if x = 0 ∧ y = 0 then ⟨0, 90⟩
  else
    let xr := degreesToRadians x
    let yr := degreesToRadians y
    let elr := arcsin (cos yr * cos xr)
    let azr :=
      if y = 0 then (if x ≥ 0 then π / 2 else 2 * π * 3 / 4)
      else if y = 90 then 0
      else if y = -90 then π
      else
        let a0 := atan2 (sin xr) (tan yr)
        if a0 < 0 then a0 + 2 * π else a0
    ⟨radiansToDegrees azr, radiansToDegrees elr⟩

/-- Astronomy::northGalacticPoleJ2000: RA (decimal hours) of the NGP. -/
noncomputable def ngpRa : ℝ := 192.8594813 / 15

/-- Astronomy::northGalacticPoleJ2000: Dec (degrees) of the NGP. -/
noncomputable def ngpDec : ℝ := 27.1282511

/-- Astronomy::equatorialToGalactic, returning (l, b) in degrees. -/
noncomputable def equatorialToGalactic (ra dec : ℝ) : ℝ × ℝ :=
  let raRad := degreesToRadians (ra * 15)
  let decRad := degreesToRadians dec
  let ngpRaRad := degreesToRadians (ngpRa * 15)
  let ngpDecRad := degreesToRadians ngpDec
  let bRad := arcsin (sin ngpDecRad * sin decRad + cos ngpDecRad * cos decRad * cos (raRad - ngpRaRad))
  let lRad := atan2 (sin decRad - sin bRad * sin ngpDecRad)
    (cos decRad * cos ngpDecRad * sin (raRad - ngpRaRad))
  let lAscend : ℝ := 33
  let b := radiansToDegrees bRad
  let l0 := radiansToDegrees lRad + lAscend
  let l1 := if l0 < 0 then l0 + 360 else l0
  let l2 := if l1 > 360 then l1 - 360 else l1
  (l2, b)

/-- Astronomy::galacticToEquatorial, returning (ra in decimal hours, dec). -/
noncomputable def galacticToEquatorial (l b : ℝ) : ℝ × ℝ :=
  let lRad := degreesToRadians l
  let bRad := degreesToRadians b
  let ngpRaRad := degreesToRadians (ngpRa * 15)
  let ngpDecRad := degreesToRadians ngpDec
  let ncpLRad := degreesToRadians 122.93129
  let decRad := arcsin (sin bRad * sin ngpDecRad + cos bRad * cos ngpDecRad * cos (lRad - ncpLRad))
  let y := sin (lRad - ncpLRad)
  let x := cos (lRad - ncpLRad) * sin ngpDecRad - tan bRad * cos ngpDecRad
  let raRad := atan2 y x + (ngpRaRad - π)
  let dec := radiansToDegrees decRad
  let ra0 := radiansToDegrees raRad / 15
  let ra1 := if ra0 < 0 then ra0 + 24 else if ra0 ≥ 24 then ra0 - 24 else ra0
  (ra1, dec)

/-- The argument handed to acos in the hour-angle step of Astronomy::sunrise
(the source applies acos to it with no clamp). -/
noncomputable def sunriseHourAngleArg (year month day : ℤ) (latitude longitude : ℝ) : ℝ :=
  let n : ℝ := (⌈julianDate year month day 0 0 0 - 2451545 + 69.184 / 86400⌉ : ℤ)
  let jStar := n - longitude / 360
  let m := modulo (357.5291 + 0.98560028 * jStar) 360
  let mRad := degreesToRadians m
  let c := 1.9148 * sin mRad + 0.02 * sin (2 * mRad) + 0.0003 * sin (3 * mRad)
  let lambda := modulo (m + c + 180 + 102.9372) 360
  let lambdaRad := degreesToRadians lambda
  let sunDecRad := arcsin (sin lambdaRad * sin (degreesToRadians 23.4397))
  let latitudeRad := degreesToRadians latitude
  (sin (degreesToRadians (-0.833)) - sin latitudeRad * sin sunDecRad)
    / (cos latitudeRad * cos sunDecRad)

/-- Astronomy::sunrise, returning the Julian dates of rise and set (the final
conversion of each Julian date to a QDateTime is not modelled). -/
noncomputable def sunrise (year month day : ℤ) (latitude longitude : ℝ) : ℝ × ℝ :=
  let n : ℝ := (⌈julianDate year month day 0 0 0 - 2451545 + 69.184 / 86400⌉ : ℤ)
  let jStar := n - longitude / 360
  let m := modulo (357.5291 + 0.98560028 * jStar) 360
  let mRad := degreesToRadians m
  let c := 1.9148 * sin mRad + 0.02 * sin (2 * mRad) + 0.0003 * sin (3 * mRad)
  let lambda := modulo (m + c + 180 + 102.9372) 360
  let lambdaRad := degreesToRadians lambda
  let jTransit := 2451545.0 + jStar + 0.0053 * sin mRad - 0.0069 * sin (2 * lambdaRad)
  let omega0Rad := arccos (sunriseHourAngleArg year month day latitude longitude)
  let omega0 := radiansToDegrees omega0Rad
  (jTransit - omega0 / 360, jTransit + omega0 / 360)

/-- PAL__DPI, a literal decimal constant in the source. -/
noncomputable def PAL_DPI : ℝ := 3.1415926535897932384626433832795028841971693993751

/-- PAL__D2PI, a literal decimal constant in the source. -/
noncomputable def PAL_D2PI : ℝ := 6.2831853071795864769252867665590057683943387987502

/-- palDrange: normalize an angle into the range plus or minus pi (with
respect to the source's literal decimal value of pi). -/
noncomputable def palDrange (angle : ℝ) : ℝ :=
  let result := cfmod angle PAL_D2PI
  if result > PAL_DPI then result - PAL_D2PI
  else if result < -PAL_DPI then result + PAL_D2PI
  else result

/-- pal1Atms: stratosphere parameters; returns (dn, rdndr). -/
noncomputable def pal1Atms (rt tt dnt gamal r : ℝ) : ℝ × ℝ :=
  let b := gamal / tt
  let w := (dnt - 1) * exp (-(b * (r - rt)))
  (1 + w, -(r * b * w))

/-- pal1Atmt: troposphere parameters; returns (t, dn, rdndr). -/
noncomputable def pal1Atmt (r0 t0 alpha gamm2 delm2 c1 c2 c3 c4 c5 c6 r : ℝ) : ℝ × ℝ × ℝ :=
  let t := max (min (t0 - alpha * (r - r0)) 320) 100
  let tt0 := t / t0
  let tt0gm2 := tt0 ^ gamm2
  let tt0dm2 := tt0 ^ delm2
  (t, 1 + (c1 * tt0gm2 - (c2 - c5 / t) * tt0dm2) * tt0,
    r * (-(c3 * tt0gm2) + (c4 - c6 / tt0) * tt0dm2))

/-- The refraction integrand refi(DN, RDNDR) = RDNDR / (DN + RDNDR). -/
noncomputable def refi (dn rdndr : ℝ) : ℝ := rdndr / (dn + rdndr)

/-- The inner radius root-find of palRefro ("find r, maximum four
iterations"): while |dr| > 1 and j < 4, one Newton-like step.  Returns the
final rg together with the iteration counter j. -/
noncomputable def refroRootFind (atm : ℝ → ℝ × ℝ) (w : ℝ) (j : ℕ) (rg dr : ℝ) : ℝ × ℕ :=
  if h : 1 < |dr| ∧ j < 4 then
    let p := atm rg
    let dr2 := (rg * p.1 - w) / (p.1 + p.2)
    refroRootFind atm w (j + 1) (rg - dr2) dr2
  else (rg, j)
termination_by 4 - j
decreasing_by omega

/-- One strip of a quadrature pass of palRefro: the body of the inner for
loop over i, acting on the state (r, fo, fe). -/
noncomputable def refroStrip (atm : ℝ → ℝ × ℝ) (sk0 z0 h : ℝ) (n : ℕ)
    (st : ℝ × ℝ × ℝ) (i : ℕ) : ℝ × ℝ × ℝ :=
  let sz := sin (z0 + h * (i : ℝ))
  let r2 := if sz > 1e-20 then (refroRootFind atm (sk0 / sz) 0 st.1 1.0e6).1 else st.1
  let p := atm r2
  let f := refi p.1 p.2
  if n = 1 ∧ i % 2 = 0 then (r2, st.2.1, st.2.2 + f) else (r2, st.2.1 + f, st.2.2)

/-- One quadrature pass of palRefro (the while loop): the strip count is
is = 8 * 2 ^ e; while the Simpson estimate has moved by more than tol and
is < 16384, the strip count is doubled.  Returns the final Simpson estimate
together with the final doubling exponent e. -/
noncomputable def refroPass (atm : ℝ → ℝ × ℝ) (tol sk0 rstart z0 zrange fb ff : ℝ)
    (e : ℕ) (refold fo0 fe0 : ℝ) (n : ℕ) : ℝ × ℕ :=
  let is : ℕ := 8 * 2 ^ e
  let h := zrange / (is : ℝ)
  let idxs := List.range' 1 ((is + n - 2) / n) n
  let st := idxs.foldl (refroStrip atm sk0 z0 h n) (rstart, fo0, fe0)
  let refp := h * (fb + 4 * st.2.1 + 2 * st.2.2 + ff) / 3
  if h2 : |refp - refold| > tol ∧ is < 16384 then
    refroPass atm tol sk0 rstart z0 zrange fb ff (e + 1) refp 0 (st.2.2 + st.2.1) 2
  else (refp, e)
termination_by 12 - e
decreasing_by
  have h8 : (2 : ℕ) ^ e < 2 ^ 11 := by
    have := h2.2
    simp only [is] at this
    omega
  have he : e < 11 := (Nat.pow_lt_pow_iff_right (by norm_num)).mp h8
  omega

/-- Everything palRefro computes after its argument-conditioning prologue:
the model atmosphere constants, the layer boundary conditions and the two
integration passes (troposphere then stratosphere). -/
noncomputable def refroBody (zobs2 hmok tdkok pmbok rhok wlok phi alpha tol : ℝ) : ℝ :=
  let GCR : ℝ := 8314.32
  let DMD : ℝ := 28.9644
  let DMW : ℝ := 18.0152
  let S : ℝ := 6378120
  let DELTA : ℝ := 18.36
  let HT : ℝ := 11000
  let HS : ℝ := 80000
  let optic := wlok < 100
  let wlsq := wlok * wlok
  let gb := 9.784 * (1 - 0.0026 * cos (phi + phi) - 0.00000028 * hmok)
  let a := if optic then (287.6155 + (1.62887 + 0.01360 / wlsq) / wlsq) * 273.15e-6 / 1013.25
           else 77.6890e-6
  let gamal := gb * DMD / GCR
  let gamma := gamal / alpha
  let gamm2 := gamma - 2
  let delm2 := DELTA - 2
  let tdc := tdkok - 273.15
  let psat := (10 : ℝ) ^ ((0.7859 + 0.03477 * tdc) / (1 + 0.00412 * tdc))
    * (1 + pmbok * (4.5e-6 + 6.0e-10 * tdc * tdc))
  let pwo := if pmbok > 0 then rhok * psat / (1 - (1 - rhok) * psat / pmbok) else 0
  let w := pwo * (1 - DMW / DMD) * gamma / (DELTA - gamma)
  let c1 := a * (pmbok + w) / tdkok
  let c2 := if optic then (a * w + 11.2684e-6 * pwo) / tdkok else (a * w + 6.3938e-6 * pwo) / tdkok
  let c3 := (gamma - 1) * alpha * c1 / tdkok
  let c4 := (DELTA - 1) * alpha * c2 / tdkok
  let c5 := if optic then 0 else 375463e-6 * pwo / tdkok
  let c6 := if optic then 0 else (375463e-6 * pwo / tdkok) * delm2 * alpha / (tdkok * tdkok)
  let r0 := S + hmok
  let atmT : ℝ → ℝ × ℝ := fun r =>
    ((pal1Atmt r0 tdkok alpha gamm2 delm2 c1 c2 c3 c4 c5 c6 r).2.1,
     (pal1Atmt r0 tdkok alpha gamm2 delm2 c1 c2 c3 c4 c5 c6 r).2.2)
  let q0 := pal1Atmt r0 tdkok alpha gamm2 delm2 c1 c2 c3 c4 c5 c6 r0
  let sk0 := q0.2.1 * r0 * sin zobs2
  let f0 := refi q0.2.1 q0.2.2
  let rt := S + max HT hmok
  let qt := pal1Atmt r0 tdkok alpha gamm2 delm2 c1 c2 c3 c4 c5 c6 rt
  let tt := qt.1
  let dnt := qt.2.1
  let sine1 := sk0 / (rt * dnt)
  let zt := atan2 sine1 (Real.sqrt (max (1 - sine1 * sine1) 0))
  let ft := refi qt.2.1 qt.2.2
  let atmS : ℝ → ℝ × ℝ := fun r => pal1Atms rt tt dnt gamal r
  let qs1 := pal1Atms rt tt dnt gamal rt
  let sine2 := sk0 / (rt * qs1.1)
  let zts := atan2 sine2 (Real.sqrt (max (1 - sine2 * sine2) 0))
  let fts := refi qs1.1 qs1.2
  let rs := S + HS
  let qs2 := pal1Atms rt tt dnt gamal rs
  let sine3 := sk0 / (rs * qs2.1)
  let zs := atan2 sine3 (Real.sqrt (max (1 - sine3 * sine3) 0))
  let fs := refi qs2.1 qs2.2
  let reft := (refroPass atmT tol sk0 r0 zobs2 (zt - zobs2) f0 ft 0 1 0 0 1).1
  let refp := (refroPass atmS tol sk0 rt zts (zs - zts) fts fs 0 1 0 0 1).1
  reft + refp

/-- palRefro: atmospheric refraction at observed zenith distance zobs, with
the argument-conditioning prologue ("transform ZOBS into the normal range",
"keep other arguments within safe bounds") and the final sign fix. -/
noncomputable def palRefro (zobs hm tdk pmb rh wl phi tlr eps : ℝ) : ℝ :=
  let D93 : ℝ := 1.623156204
  let zobs1 := palDrange zobs
  let zobs2 := min |zobs1| D93
  let hmok := min (max hm (-1e3)) 80000
  let tdkok := min (max tdk 100) 500
  let pmbok := min (max pmb 0) 10000
  let rhok := min (max rh 0) 1
  let wlok := max wl 0.1
  let alpha := min (max |tlr| 0.001) 0.01
  let tol := min (max |eps| 1e-12) 0.1 / 2
  let ref := refroBody zobs2 hmok tdkok pmbok rhok wlok phi alpha tol
  if zobs1 < 0 then -ref else ref

/-- The eighteen read-only coefficient arrays of eraEpv00 (amplitude, phase,
frequency triples; spec section 9 prescribes treating them as constant
data).  They are abstracted here as a parameter: every theorem below holds
for the literal tables of the source as a special case. -/
structure Epv00Tables where
  e0 : Fin 3 → List (ℝ × ℝ × ℝ)
  e1 : Fin 3 → List (ℝ × ℝ × ℝ)
  e2 : Fin 3 → List (ℝ × ℝ × ℝ)
  s0 : Fin 3 → List (ℝ × ℝ × ℝ)
  s1 : Fin 3 → List (ℝ × ℝ × ℝ)
  s2 : Fin 3 → List (ℝ × ℝ × ℝ)

/-- The T^0 term loop of eraEpv00: xyz += a cos(b + c t); xyzd -= a c sin(b + c t). -/
noncomputable def epvAccum0 (t : ℝ) (coeffs : List (ℝ × ℝ × ℝ)) (acc : ℝ × ℝ) : ℝ × ℝ :=
  coeffs.foldl (fun s c =>
    (s.1 + c.1 * cos (c.2.1 + c.2.2 * t),
     s.2 - c.1 * c.2.2 * sin (c.2.1 + c.2.2 * t))) acc

/-- The T^1 term loop of eraEpv00. -/
noncomputable def epvAccum1 (t : ℝ) (coeffs : List (ℝ × ℝ × ℝ)) (acc : ℝ × ℝ) : ℝ × ℝ :=
  coeffs.foldl (fun s c =>
    (s.1 + c.1 * t * cos (c.2.1 + c.2.2 * t),
     s.2 + c.1 * (cos (c.2.1 + c.2.2 * t) - c.2.2 * t * sin (c.2.1 + c.2.2 * t)))) acc

/-- The T^2 term loop of eraEpv00. -/
noncomputable def epvAccum2 (t t2 : ℝ) (coeffs : List (ℝ × ℝ × ℝ)) (acc : ℝ × ℝ) : ℝ × ℝ :=
  coeffs.foldl (fun s c =>
    (s.1 + c.1 * t2 * cos (c.2.1 + c.2.2 * t),
     s.2 + c.1 * t * (2 * cos (c.2.1 + c.2.2 * t) - c.2.2 * t * sin (c.2.1 + c.2.2 * t)))) acc

/-- A position/velocity pair of Cartesian vectors, as the pvh and pvb
double[2][3] output arrays of eraEpv00. -/
structure Pv where
  p : Fin 3 → ℝ
  v : Fin 3 → ℝ

/-- The rotation from ecliptic to BCRS coordinates at the end of eraEpv00,
with the literal matrix elements am12 .. am33 of the source. -/
noncomputable def epvRotate (w : Fin 3 → ℝ) : Fin 3 → ℝ := fun i =>
  if i = 0 then w 0 + 0.000000211284 * w 1 + -0.000000091603 * w 2
  else if i = 1 then -0.000000230286 * w 0 + 0.917482137087 * w 1 + -0.397776982902 * w 2
  else 0.397776982902 * w 1 + 0.917482137087 * w 2

/-- The position/velocity outputs of eraEpv00: for each Cartesian component,
the Sun-to-Earth series accumulate into (xyz, xyzd) giving the heliocentric
component, then the SSB-to-Sun series continue accumulating into the same
sums giving the barycentric component; velocities are divided by the days
per Julian year and the results rotated into the BCRS frame. -/
noncomputable def eraEpv00pv (tab : Epv00Tables) (date1 date2 : ℝ) : Pv × Pv :=
  let t := ((date1 - 2451545.0) + date2) / 365.25
  let t2 := t * t
  let hsum : Fin 3 → ℝ × ℝ := fun i =>
    epvAccum2 t t2 (tab.e2 i) (epvAccum1 t (tab.e1 i) (epvAccum0 t (tab.e0 i) (0, 0)))
  let bsum : Fin 3 → ℝ × ℝ := fun i =>
    epvAccum2 t t2 (tab.s2 i) (epvAccum1 t (tab.s1 i) (epvAccum0 t (tab.s0 i) (hsum i)))
  (⟨epvRotate (fun i => (hsum i).1), epvRotate (fun i => (hsum i).2 / 365.25)⟩,
   ⟨epvRotate (fun i => (bsum i).1), epvRotate (fun i => (bsum i).2 / 365.25)⟩)

/-- eraEpv00: Earth position/velocity, heliocentric and barycentric; the
returned status is 0 when |t| is at most 100 Julian years from J2000.0 and
+1 (warning: date outside the range 1900-2100 AD) otherwise, and the
position/velocity outputs are computed unconditionally either way. -/
noncomputable def eraEpv00 (tab : Epv00Tables) (date1 date2 : ℝ) : ℤ × Pv × Pv :=
  let t := ((date1 - 2451545.0) + date2) / 365.25
  let t2 := t * t
  let jstat : ℤ := if |t| ≤ 100 then 0 else 1
  let hsum : Fin 3 → ℝ × ℝ := fun i =>
    epvAccum2 t t2 (tab.e2 i) (epvAccum1 t (tab.e1 i) (epvAccum0 t (tab.e0 i) (0, 0)))
  let bsum : Fin 3 → ℝ × ℝ := fun i =>
    epvAccum2 t t2 (tab.s2 i) (epvAccum1 t (tab.s1 i) (epvAccum0 t (tab.s0 i) (hsum i)))
  (jstat,
   ⟨epvRotate (fun i => (hsum i).1), epvRotate (fun i => (hsum i).2 / 365.25)⟩,
   ⟨epvRotate (fun i => (bsum i).1), epvRotate (fun i => (bsum i).2 / 365.25)⟩)

/-! Helper lemmas about the remainder operations. -/

theorem cfmod_bounds_of_nonneg {a b : ℝ} (ha : 0 ≤ a) (hb : 0 < b) :
    0 ≤ cfmod a b ∧ cfmod a b < b := by
  have hab : 0 ≤ a / b := div_nonneg ha hb.le
  have hcan : a / b * b = a := div_mul_cancel₀ a hb.ne.symm
  unfold cfmod rtrunc
  rw [if_pos hab]
  constructor
  · nlinarith [Int.floor_le (a / b)]
  · nlinarith [Int.lt_floor_add_one (a / b)]

theorem cfmod_bounds_of_neg {a b : ℝ} (ha : a < 0) (hb : 0 < b) :
    -b < cfmod a b ∧ cfmod a b ≤ 0 := by
  have hab : ¬(0 ≤ a / b) := by
    simp only [not_le]
    exact div_neg_of_neg_of_pos ha hb
  have hcan : a / b * b = a := div_mul_cancel₀ a hb.ne.symm
  unfold cfmod rtrunc
  rw [if_neg hab]
  constructor
  · nlinarith [Int.ceil_lt_add_one (a / b)]
  · nlinarith [Int.le_ceil (a / b)]

theorem modulo_bounds (a : ℝ) {b : ℝ} (hb : 0 < b) :
    0 ≤ modulo a b ∧ modulo a b < b := by
  have hcan : a / b * b = a := div_mul_cancel₀ a hb.ne.symm
  unfold modulo
  constructor
  · nlinarith [Int.floor_le (a / b)]
  · nlinarith [Int.lt_floor_add_one (a / b)]

/-! Claim theorems. -/

/-- C8: for every frequency f and every nonzero reference frequency f0,
velocityToDoppler (dopplerToVelocity f f0) f0 = f exactly: the two
conversions are pure algebraic inverses. -/
theorem velocityToDoppler_dopplerToVelocity (f f0 : ℝ) (h : f0 ≠ 0) :
    velocityToDoppler (dopplerToVelocity f f0) f0 = f := by
  unfold velocityToDoppler dopplerToVelocity
  field_simp
  ring

theorem velocityToDoppler_dopplerToVelocity_witness :
    (1420405751.768 : ℝ) ≠ 0 ∧
      velocityToDoppler (dopplerToVelocity 1420405000 1420405751.768) 1420405751.768
        = 1420405000 :=
  ⟨by norm_num,
   velocityToDoppler_dopplerToVelocity 1420405000 1420405751.768 (by norm_num)⟩

/-- C9: for any azimuth, the forward stereographic projections at altitude
exactly 90 return (0, 0) in both the "85" and the "30" conventions, and the
inverse mappings at (0, 0) return azimuth 0 and altitude 90 exactly. -/
theorem zenith_boundary_of_projections (az : ℝ) :
    azAltToXY85 ⟨az, 90⟩ = (0, 0) ∧ azAltToXY30 ⟨az, 90⟩ = (0, 0) ∧
      xy85ToAzAlt 0 0 = ⟨0, 90⟩ ∧ xy30ToAzAlt 0 0 = ⟨0, 90⟩ := by
  refine ⟨?_, ?_, ?_, ?_⟩
  · unfold azAltToXY85
    rw [if_pos rfl]
  · unfold azAltToXY30
    rw [if_pos rfl]
  · unfold xy85ToAzAlt
    rw [if_pos ⟨rfl, rfl⟩]
  · unfold xy30ToAzAlt
    rw [if_pos ⟨rfl, rfl⟩]

/-- C7 counterexample: for the timestamp 1900-01-01 00:00:00 UTC and the
westerly longitude -120, localSiderealTime returns a negative value
(-19.80385155 degrees), because the final C fmod keeps the sign of its
argument, so the result is not in [0, 360). -/
theorem localSiderealTime_counterexample :
    localSiderealTime ⟨1900, 1, 1, 0, 0, 0⟩ (-120) = -39607703 / 2000000 := by
  have hjd : julianDateDT ⟨1900, 1, 1, 0, 0, 0⟩ = 2415020.5 := by
    unfold julianDateDT julianDate
    rw [show julianDay 1900 1 1 = 2415021 from by decide]
    norm_num
  have h2000 : jd_j2000 = 2451545 := by
    unfold jd_j2000 julianDate
    rw [show julianDay 2000 1 1 = 2451545 from by decide]
    norm_num
  have hf : cfmod 2415020.5 1 = 0.5 := by
    unfold cfmod rtrunc
    rw [if_pos (by norm_num : (0 : ℝ) ≤ 2415020.5 / 1)]
    rw [show (⌊(2415020.5 : ℝ) / 1⌋ : ℤ) = 2415020 from by
      rw [Int.floor_eq_iff] <;> norm_num]
    norm_num
  have harg : lstArg ⟨1900, 1, 1, 0, 0, 0⟩ (-120) = -71319607703 / 2000000 := by
    simp only [lstArg]
    rw [hjd, h2000, hf]
    norm_num
  unfold localSiderealTime
  rw [harg]
  unfold cfmod rtrunc
  rw [if_neg (by norm_num : ¬(0 : ℝ) ≤ -71319607703 / 2000000 / 360)]
  rw [show (⌈(-71319607703 / 2000000 : ℝ) / 360⌉ : ℤ) = -99 from by
    rw [Int.ceil_eq_iff] <;> norm_num]
  norm_num

/-- C7 amended: localSiderealTime always lies strictly between -360 and 360
(it is a C fmod by 360, which keeps the sign of its argument); whenever the
accumulated pre-fmod argument is nonnegative - in particular for timestamps
at or after J2000 with longitudes that do not drive it negative - the result
lies in [0, 360).  For sufficiently early timestamps combined with westerly
longitudes the result is negative. -/
theorem localSiderealTime_range (dt : DateTime) (longitude : ℝ) :
    (-360 < localSiderealTime dt longitude ∧ localSiderealTime dt longitude < 360)
      ∧ (0 ≤ lstArg dt longitude →
          0 ≤ localSiderealTime dt longitude ∧ localSiderealTime dt longitude < 360) := by
  unfold localSiderealTime
  rcases le_or_lt 0 (lstArg dt longitude) with h | h
  · have hb := cfmod_bounds_of_nonneg h (by norm_num : (0 : ℝ) < 360)
    exact ⟨⟨by linarith [hb.1], hb.2⟩, fun _ => hb⟩
  · have hb := cfmod_bounds_of_neg h (by norm_num : (0 : ℝ) < 360)
    exact ⟨⟨by linarith [hb.1], by linarith [hb.2]⟩,
      fun hc => absurd hc (not_le.mpr h)⟩

theorem localSiderealTime_range_witness :
    0 ≤ lstArg ⟨2000, 1, 1, 12, 0, 0⟩ 0
      ∧ (0 ≤ localSiderealTime ⟨2000, 1, 1, 12, 0, 0⟩ 0
          ∧ localSiderealTime ⟨2000, 1, 1, 12, 0, 0⟩ 0 < 360) := by
  have harg : lstArg ⟨2000, 1, 1, 12, 0, 0⟩ 0 = 280.46 := by
    simp only [lstArg]
    have hjd : julianDateDT ⟨2000, 1, 1, 12, 0, 0⟩ = 2451545 := by
      unfold julianDateDT julianDate
      rw [show julianDay 2000 1 1 = 2451545 from by decide]
      norm_num
    have h2000 : jd_j2000 = 2451545 := by
      unfold jd_j2000 julianDate
      rw [show julianDay 2000 1 1 = 2451545 from by decide]
      norm_num
    have hf : cfmod 2451545 1 = 0 := by
      unfold cfmod rtrunc
      rw [if_pos (by norm_num : (0 : ℝ) ≤ 2451545 / 1)]
      rw [show (⌊(2451545 : ℝ) / 1⌋ : ℤ) = 2451545 from by
        rw [Int.floor_eq_iff] <;> norm_num]
      norm_num
    rw [hjd, h2000, hf]
    norm_num
  have h0 : 0 ≤ lstArg ⟨2000, 1, 1, 12, 0, 0⟩ 0 := by rw [harg]; norm_num
  exact ⟨h0, (localSiderealTime_range ⟨2000, 1, 1, 12, 0, 0⟩ 0).2 h0⟩

/-- C2: for every coefficient table set and every pair of date arguments,
eraEpv00 returns status 0 when the date is within 100 Julian years of
J2000.0 and status +1 (warning) when it is outside that range, and in both
cases the heliocentric and barycentric position/velocity outputs are the
unconditional series evaluation eraEpv00pv (no branch withholds them). -/
theorem eraEpv00_status (tab : Epv00Tables) (date1 date2 : ℝ) :
    ((|((date1 - 2451545.0) + date2) / 365.25| ≤ 100 →
        (eraEpv00 tab date1 date2).1 = 0)
      ∧ (100 < |((date1 - 2451545.0) + date2) / 365.25| →
        (eraEpv00 tab date1 date2).1 = 1))
      ∧ (eraEpv00 tab date1 date2).2 = eraEpv00pv tab date1 date2 := by
  refine ⟨⟨fun h => ?_, fun h => ?_⟩, rfl⟩
  · simp only [eraEpv00]
    rw [if_pos h]
  · simp only [eraEpv00]
    rw [if_neg (not_le.mpr h)]

theorem eraEpv00_status_witness :
    (|((2451545 - 2451545.0 : ℝ) + 0) / 365.25| ≤ 100
      ∧ (eraEpv00 ⟨fun _ => [], fun _ => [], fun _ => [],
          fun _ => [], fun _ => [], fun _ => []⟩ 2451545 0).1 = 0)
    ∧ ((100 : ℝ) < |((2451545 - 2451545.0 : ℝ) + 36525000) / 365.25|
      ∧ (eraEpv00 ⟨fun _ => [], fun _ => [], fun _ => [],
          fun _ => [], fun _ => [], fun _ => []⟩ 2451545 36525000).1 = 1) :=
  ⟨⟨by rw [abs_le]; norm_num, (eraEpv00_status _ 2451545 0).1.1 (by rw [abs_le]; norm_num)⟩,
   ⟨by rw [lt_abs]; norm_num,
    (eraEpv00_status _ 2451545 36525000).1.2 (by rw [lt_abs]; norm_num)⟩⟩

/-! Bounds for degree-valued inverse trigonometry, used for claim C1. -/

theorem radiansToDegrees_arccos_nonneg (X : ℝ) : 0 ≤ radiansToDegrees (arccos X) := by
  unfold radiansToDegrees
  rw [le_div_iff₀ pi_pos]
  nlinarith [arccos_nonneg X, pi_pos]

theorem radiansToDegrees_arccos_le (X : ℝ) : radiansToDegrees (arccos X) ≤ 180 := by
  unfold radiansToDegrees
  rw [div_le_iff₀ pi_pos]
  nlinarith [arccos_le_pi X, pi_pos, arccos_nonneg X]

theorem radiansToDegrees_arcsin_bounds (Y : ℝ) :
    -90 ≤ radiansToDegrees (arcsin Y) ∧ radiansToDegrees (arcsin Y) ≤ 90 := by
  unfold radiansToDegrees
  constructor
  · rw [le_div_iff₀ pi_pos]
    nlinarith [neg_pi_div_two_le_arcsin Y, pi_pos, arcsin_le_pi_div_two Y]
  · rw [div_le_iff₀ pi_pos]
    nlinarith [neg_pi_div_two_le_arcsin Y, pi_pos, arcsin_le_pi_div_two Y]

/-- C1 amended: for every equatorial input, location and time, raDecToAzAlt
returns an azimuth in the CLOSED interval [0, 360] - the right endpoint 360
is attained, see the counterexample - and an altitude in [-90, 90]; and for
every horizontal input, location and time, azAltToRaDec returns a right
ascension in [0, 24). -/
theorem raDecToAzAlt_azAltToRaDec_ranges (rd : RADec) (aa : AzAlt)
    (lat lon : ℝ) (dt : DateTime) (j2000 : Bool) :
    (0 ≤ (raDecToAzAlt rd lat lon dt j2000).az
        ∧ (raDecToAzAlt rd lat lon dt j2000).az ≤ 360)
      ∧ (-90 ≤ (raDecToAzAlt rd lat lon dt j2000).alt
        ∧ (raDecToAzAlt rd lat lon dt j2000).alt ≤ 90)
      ∧ (0 ≤ (azAltToRaDec aa lat lon dt).ra
        ∧ (azAltToRaDec aa lat lon dt).ra < 24) := by
  refine ⟨?_, ?_, ?_⟩
  · simp only [raDecToAzAlt]
    split <;> split <;>
      first
        | exact ⟨radiansToDegrees_arccos_nonneg _,
            le_trans (radiansToDegrees_arccos_le _) (by norm_num)⟩
        | exact ⟨sub_nonneg.mpr (le_trans (radiansToDegrees_arccos_le _) (by norm_num)),
            sub_le_self 360 (radiansToDegrees_arccos_nonneg _)⟩
  · simp only [raDecToAzAlt]
    exact radiansToDegrees_arcsin_bounds _
  · simp only [azAltToRaDec]
    exact modulo_bounds _ (by norm_num)

/-- C1 counterexample: at right ascension 0 h, declination 45 degrees,
latitude 0, longitude 79.54 degrees and time 2000-01-01 12:00:00 UTC (which
make the hour angle exactly 0 and the arccos argument exactly 1), the
azimuth returned by raDecToAzAlt is exactly 360, which is not in [0, 360). -/
theorem raDecToAzAlt_counterexample :
    (raDecToAzAlt ⟨0, 45⟩ 0 79.54 ⟨2000, 1, 1, 12, 0, 0⟩ false).az = 360 := by
  have hjd : julianDateDT ⟨2000, 1, 1, 12, 0, 0⟩ = 2451545 := by
    unfold julianDateDT julianDate
    rw [show julianDay 2000 1 1 = 2451545 from by decide]
    norm_num
  have h2000 : jd_j2000 = 2451545 := by
    unfold jd_j2000 julianDate
    rw [show julianDay 2000 1 1 = 2451545 from by decide]
    norm_num
  have hf : cfmod 2451545 1 = 0 := by
    unfold cfmod rtrunc
    rw [if_pos (by norm_num : (0 : ℝ) ≤ 2451545 / 1)]
    rw [show (⌊(2451545 : ℝ) / 1⌋ : ℤ) = 2451545 from by
      rw [Int.floor_eq_iff] <;> norm_num]
    norm_num
  have hlst : localSiderealTime ⟨2000, 1, 1, 12, 0, 0⟩ 79.54 = 0 := by
    unfold localSiderealTime
    have harg : lstArg ⟨2000, 1, 1, 12, 0, 0⟩ 79.54 = 360 := by
      simp only [lstArg]
      rw [hjd, h2000, hf]
      norm_num
    rw [harg]
    unfold cfmod rtrunc
    rw [if_pos (by norm_num : (0 : ℝ) ≤ 360 / 360)]
    rw [show (⌊(360 : ℝ) / 360⌋ : ℤ) = 1 from by rw [Int.floor_eq_iff] <;> norm_num]
    norm_num
  have hha0 : cfmod 0 360 = 0 := by
    unfold cfmod rtrunc
    rw [if_pos (by norm_num : (0 : ℝ) ≤ 0 / 360)]
    rw [show (⌊(0 : ℝ) / 360⌋ : ℤ) = 0 from by norm_num]
    norm_num
  have hd0 : degreesToRadians 0 = 0 := by unfold degreesToRadians; ring
  have hd45 : degreesToRadians 45 = π / 4 := by unfold degreesToRadians; ring
  have harcsin : arcsin (Real.sqrt 2 / 2) = π / 4 := by
    rw [← Real.sin_pi_div_four]
    exact arcsin_sin (by linarith [pi_pos]) (by linarith [pi_pos])
  simp only [raDecToAzAlt]
  rw [if_neg Bool.false_ne_true]
  rw [hlst]
  norm_num
  rw [hha0, hd0, hd45]
  rw [Real.sin_zero, Real.cos_zero]
  norm_num
  rw [harcsin, Real.cos_pi_div_four]
  rw [div_self (by positivity : (Real.sqrt 2 / 2 : ℝ) ≠ 0)]
  rw [Real.arccos_one]
  unfold radiansToDegrees
  norm_num

/-! Clamp idempotence helpers for claim C10. -/

theorem clamp_idem {x lo hi : ℝ} (h : lo ≤ hi) :
    min (max (min (max x lo) hi) lo) hi = min (max x lo) hi := by
  have h1 : lo ≤ min (max x lo) hi := le_min (le_max_right _ _) h
  rw [max_eq_left h1]
  exact min_eq_left (min_le_right _ _)

theorem palDrange_id {z : ℝ} (h0 : 0 ≤ z) (h1 : z ≤ 1.623156204) :
    palDrange z = z := by
  unfold palDrange cfmod rtrunc PAL_D2PI PAL_DPI
  have hq : 0 ≤ z / 6.2831853071795864769252867665590057683943387987502 := by positivity
  rw [if_pos hq]
  rw [show (⌊z / 6.2831853071795864769252867665590057683943387987502⌋ : ℤ) = 0 from by
    rw [Int.floor_eq_iff]
    push_cast
    constructor
    · positivity
    · rw [div_lt_iff₀ (by norm_num)]
      linarith]
  rw [if_neg (by push_cast; intro hc; linarith), if_neg (by push_cast; intro hc; linarith)]
  push_cast
  ring

/-- C10: palRefro conditions all its arguments before use: its result equals
its own result on the clamped arguments - observer height clamped to
[-1000, 80000] m, temperature to [100, 500] K, pressure to [0, 10000] mb,
relative humidity to [0, 1], wavelength raised to at least 0.1 micrometre,
the absolute lapse rate clamped to [0.001, 0.01] K/m, and the zenith
distance normalized (palDrange) and capped in magnitude at 93 degrees, with
the sign of the normalized zenith distance applied to the result. -/
theorem palRefro_clamped_args (zobs hm tdk pmb rh wl phi tlr eps : ℝ) :
    palRefro zobs hm tdk pmb rh wl phi tlr eps =
      (if palDrange zobs < 0
       then -(palRefro (min |palDrange zobs| 1.623156204) (min (max hm (-1e3)) 80000)
              (min (max tdk 100) 500) (min (max pmb 0) 10000) (min (max rh 0) 1)
              (max wl 0.1) phi (min (max |tlr| 0.001) 0.01) eps)
       else palRefro (min |palDrange zobs| 1.623156204) (min (max hm (-1e3)) 80000)
              (min (max tdk 100) 500) (min (max pmb 0) 10000) (min (max rh 0) 1)
              (max wl 0.1) phi (min (max |tlr| 0.001) 0.01) eps) := by
  have hz2nn : 0 ≤ min |palDrange zobs| (1.623156204 : ℝ) :=
    le_min (abs_nonneg _) (by norm_num)
  have hz2le : min |palDrange zobs| (1.623156204 : ℝ) ≤ 1.623156204 := min_le_right _ _
  have htlrnn : 0 ≤ min (max |tlr| 0.001) (0.01 : ℝ) :=
    le_min (le_trans (by norm_num) (le_max_right _ _)) (by norm_num)
  have hinner : palRefro (min |palDrange zobs| 1.623156204) (min (max hm (-1e3)) 80000)
      (min (max tdk 100) 500) (min (max pmb 0) 10000) (min (max rh 0) 1)
      (max wl 0.1) phi (min (max |tlr| 0.001) 0.01) eps
      = refroBody (min |palDrange zobs| 1.623156204) (min (max hm (-1e3)) 80000)
          (min (max tdk 100) 500) (min (max pmb 0) 10000) (min (max rh 0) 1)
          (max wl 0.1) phi (min (max |tlr| 0.001) 0.01)
          (min (max |eps| 1e-12) 0.1 / 2) := by
    simp only [palRefro]
    rw [palDrange_id hz2nn hz2le]
    rw [abs_of_nonneg hz2nn, min_eq_left hz2le]
    rw [clamp_idem (by norm_num : (-1e3 : ℝ) ≤ 80000)]
    rw [clamp_idem (by norm_num : (100 : ℝ) ≤ 500)]
    rw [clamp_idem (by norm_num : (0 : ℝ) ≤ 10000)]
    rw [clamp_idem (by norm_num : (0 : ℝ) ≤ 1)]
    rw [max_assoc, max_self]
    rw [abs_of_nonneg htlrnn, clamp_idem (by norm_num : (0.001 : ℝ) ≤ 0.01)]
    rw [if_neg (not_lt.mpr hz2nn)]
  rw [hinner]
  simp only [palRefro]

/-! Iteration bounds for the refraction integration, claim C3. -/

theorem refroRootFind_count_le (atm : ℝ → ℝ × ℝ) (w : ℝ) (j : ℕ) (rg dr : ℝ) :
    (refroRootFind atm w j rg dr).2 ≤ max j 4 := by
  induction j, rg, dr using refroRootFind.induct atm w with
  | case1 j rg dr h p dr2 ih =>
    rw [refroRootFind, dif_pos h]
    refine le_trans ih ?_
    have := h.2
    omega
  | case2 j rg dr h =>
    rw [refroRootFind, dif_neg h]
    exact le_max_left _ _

theorem refroPass_exp_le (atm : ℝ → ℝ × ℝ) (tol sk0 rstart z0 zrange fb ff : ℝ)
    (e : ℕ) (refold fo0 fe0 : ℝ) (n : ℕ) :
    (refroPass atm tol sk0 rstart z0 zrange fb ff e refold fo0 fe0 n).2 ≤ max e 11 := by
  induction e, refold, fo0, fe0, n using refroPass.induct atm tol sk0 rstart z0 zrange fb ff with
  | case1 e refold fo0 fe0 n is h idxs st refp h2 ih =>
    rw [refroPass, dif_pos h2]
    refine le_trans ih ?_
    have h8 : (8 : ℕ) * 2 ^ e < 16384 := h2.2
    have he : e < 11 := by
      have h9 : (2 : ℕ) ^ e < 2 ^ 11 := by omega
      exact (Nat.pow_lt_pow_iff_right (by norm_num)).mp h9
    simp only [Nat.max_le, le_max_iff]
    omega
  | case2 e refold fo0 fe0 n is h idxs st refp h2 =>
    rw [refroPass, dif_neg h2]
    exact le_max_left _ _

/-- C3: bounded termination of the refraction integration.  Each of the two
quadrature passes of palRefro is refroPass entered with doubling exponent 0
(strip count 8 = 8 * 2^0, refold = 1, n = 1): for every atmosphere model,
tolerance and geometry the final doubling exponent is at most 11, i.e. at
most 12 Simpson iterations are performed and the strip count 8 * 2^e never
exceeds the hard cap 16384 (the strip count is doubled only while the
estimate has not converged within tolerance and the count is below the cap);
and the inner radius root-find, entered with j = 0, performs at most 4
iterations.  All the functions are total, so the worst-case operation count
is a fixed constant independent of input magnitude. -/
theorem refro_iteration_caps (atm : ℝ → ℝ × ℝ)
    (tol sk0 rstart z0 zrange fb ff w rg dr : ℝ) :
    ((refroPass atm tol sk0 rstart z0 zrange fb ff 0 1 0 0 1).2 ≤ 11
      ∧ 8 * 2 ^ (refroPass atm tol sk0 rstart z0 zrange fb ff 0 1 0 0 1).2 ≤ 16384)
    ∧ (refroRootFind atm w 0 rg dr).2 ≤ 4 := by
  have hp := refroPass_exp_le atm tol sk0 rstart z0 zrange fb ff 0 1 0 0 1
  have he : (refroPass atm tol sk0 rstart z0 zrange fb ff 0 1 0 0 1).2 ≤ 11 := by
    simpa using hp
  refine ⟨⟨he, ?_⟩, by simpa using refroRootFind_count_le atm w 0 rg dr⟩
  have : (2 : ℕ) ^ (refroPass atm tol sk0 rstart z0 zrange fb ff 0 1 0 0 1).2 ≤ 2 ^ 11 :=
    Nat.pow_le_pow_right (by norm_num) he
  omega

/-- C4: the branch guard of azAltToXY85 tests the wrong variable.  The
singular denominator of its cotangent term cos(elr)/sin(elr) vanishes at
elevation 0, but the guard tests az == 0: at the non-singular input az = 0,
alt = 45 the function returns the branch-table constant x = -90, although
the projection formula itself evaluates there to exactly -45 (second
conjunct).  At el = 0 with az not 0 the zero denominator is reached
unguarded.  (The inner az == 90 / az == 270 comparisons of the branch are
unreachable under az == 0, matching the analysis.) -/
theorem azAltToXY85_wrong_guard :
    (azAltToXY85 ⟨0, 45⟩).1 = -90
      ∧ radiansToDegrees (arctan (-(cos (degreesToRadians 45) / sin (degreesToRadians 45))
          * cos (degreesToRadians 0))) = -45 := by
  constructor
  · simp only [azAltToXY85]
    norm_num
  · have hd45 : degreesToRadians 45 = π / 4 := by unfold degreesToRadians; ring
    have hd0 : degreesToRadians 0 = 0 := by unfold degreesToRadians; ring
    rw [hd45, hd0, Real.cos_pi_div_four, Real.sin_pi_div_four, Real.cos_zero]
    rw [div_self (by positivity : (Real.sqrt 2 / 2 : ℝ) ≠ 0)]
    norm_num [Real.arctan_one]
    unfold radiansToDegrees
    field_simp
    ring

/-! Taylor-series bounds used for claim C6 (the sunrise equation at polar
latitudes). -/

theorem cos_lb_of_abs_le {u c : ℝ} (h : |u| ≤ c) (hc : c ≤ 1) :
    1 - c ^ 2 / 2 - c ^ 4 * (5 / 96) ≤ cos u := by
  have h1 : |u| ≤ 1 := le_trans h hc
  have hb := Real.cos_bound h1
  have h0 : (0 : ℝ) ≤ |u| := abs_nonneg u
  have h2 : |u| ^ 2 ≤ c ^ 2 := by nlinarith
  have h4 : |u| ^ 4 ≤ c ^ 4 := by nlinarith
  have hlo : (1 - u ^ 2 / 2) - |u| ^ 4 * (5 / 96) ≤ cos u := by
    have := abs_sub_le_iff.mp hb
    linarith [this.2]
  nlinarith [sq_abs u]

theorem sin_lb_of_mem {t lo hi : ℝ} (h1 : lo ≤ t) (h2 : t ≤ hi) (h0 : 0 ≤ lo) (hhi : hi ≤ 1) :
    lo - hi ^ 3 / 6 - hi ^ 4 * (5 / 96) ≤ sin t := by
  have ht0 : 0 ≤ t := le_trans h0 h1
  have ht : |t| ≤ 1 := by rw [abs_le]; constructor <;> linarith
  have hb := Real.sin_bound ht
  have hlo : (t - t ^ 3 / 6) - |t| ^ 4 * (5 / 96) ≤ sin t := by
    have := abs_sub_le_iff.mp hb
    linarith [this.2]
  have h3 : t ^ 3 ≤ hi ^ 3 := pow_le_pow_left₀ ht0 h2 3
  have h4 : t ^ 4 ≤ hi ^ 4 := pow_le_pow_left₀ ht0 h2 4
  have habs : |t| = t := abs_of_nonneg ht0
  rw [habs] at hlo
  linarith

set_option maxHeartbeats 1600000 in
theorem sunrise_polar_core {lam : ℝ} (hlam1 : 87 ≤ lam) (hlam2 : lam ≤ 91) :
    (sin (degreesToRadians (-0.833))
      - sin (degreesToRadians 89)
        * sin (arcsin (sin (degreesToRadians lam) * sin (degreesToRadians 23.4397))))
    / (cos (degreesToRadians 89)
        * cos (arcsin (sin (degreesToRadians lam) * sin (degreesToRadians 23.4397)))) < -1 := by
  have hpl : 3.141592 < π := pi_gt_3141592
  have hpu : π < 3.141593 := pi_lt_3141593
  have hT1 : 0.409099 ≤ degreesToRadians 23.4397 := by unfold degreesToRadians; nlinarith
  have hT2 : degreesToRadians 23.4397 ≤ 0.4091 := by unfold degreesToRadians; nlinarith
  have hsinT1 : 0.396 ≤ sin (degreesToRadians 23.4397) := by
    have hb := sin_lb_of_mem hT1 hT2 (by norm_num) (by norm_num)
    norm_num at hb
    linarith
  have hsinT2 : sin (degreesToRadians 23.4397) ≤ 0.4091 :=
    le_trans (le_of_lt (sin_lt (by linarith))) hT2
  have hsinT0 : 0 < sin (degreesToRadians 23.4397) := by linarith
  have hL : sin (degreesToRadians lam) = cos (π / 2 - degreesToRadians lam) :=
    (cos_pi_div_two_sub _).symm
  have hu : |π / 2 - degreesToRadians lam| ≤ 0.0524 := by
    have hform : π / 2 - degreesToRadians lam = π * (90 - lam) / 180 := by
      unfold degreesToRadians
      ring
    have hq1 : π * (90 - lam) ≤ π * 3 :=
      mul_le_mul_of_nonneg_left (by linarith) pi_pos.le
    have hq2 : π * (-1) ≤ π * (90 - lam) :=
      mul_le_mul_of_nonneg_left (by linarith) pi_pos.le
    rw [hform, abs_le]
    constructor
    · nlinarith
    · nlinarith
  have hsinL1 : 0.99 ≤ sin (degreesToRadians lam) := by
    rw [hL]
    have hb := cos_lb_of_abs_le hu (by norm_num)
    norm_num at hb
    linarith
  have hsinL2 : sin (degreesToRadians lam) ≤ 1 := sin_le_one _
  set x := sin (degreesToRadians lam) * sin (degreesToRadians 23.4397) with hx
  have hx1 : 0.392 ≤ x := by rw [hx]; nlinarith
  have hx2 : x ≤ 0.41 := by rw [hx]; nlinarith
  have hsd : sin (arcsin x) = x := sin_arcsin (by linarith) (by linarith)
  have hcd : cos (arcsin x) = Real.sqrt (1 - x ^ 2) := by
    rw [cos_arcsin]
  have hcd1 : cos (arcsin x) ≤ 1 := by
    rw [hcd]
    exact Real.sqrt_le_one.mpr (by nlinarith)
  have hcd0 : 0 < cos (arcsin x) := by
    rw [hcd]
    apply Real.sqrt_pos.mpr
    nlinarith
  have hsinP : 0.99 ≤ sin (degreesToRadians 89) := by
    have he : sin (degreesToRadians 89) = cos (π / 180) := by
      rw [← cos_pi_div_two_sub]
      congr 1
      unfold degreesToRadians
      ring
    rw [he]
    have habs : |π / 180| ≤ (0.0524 : ℝ) := by
      rw [abs_le]
      constructor <;> nlinarith
    have hb := cos_lb_of_abs_le habs (by norm_num)
    norm_num at hb
    linarith
  have hsinP2 : sin (degreesToRadians 89) ≤ 1 := sin_le_one _
  have hcosP : cos (degreesToRadians 89) = sin (π / 180) := by
    rw [← sin_pi_div_two_sub]
    congr 1
    unfold degreesToRadians
    ring
  have hcosP1 : cos (degreesToRadians 89) ≤ 0.01746 := by
    rw [hcosP]
    have hsl : sin (π / 180) < π / 180 := sin_lt (by positivity)
    linarith
  have hcosP0 : 0 < cos (degreesToRadians 89) := by
    rw [hcosP]
    exact sin_pos_of_pos_of_lt_pi (by positivity) (div_lt_self pi_pos (by norm_num))
  have hs833 : sin (degreesToRadians (-0.833)) ≤ 0 := by
    have h1 : degreesToRadians (-0.833) = -(0.833 * π / 180) := by
      unfold degreesToRadians
      ring
    rw [h1, sin_neg]
    have : 0 < sin (0.833 * π / 180) := sin_pos_of_pos_of_lt_pi (by nlinarith) (by nlinarith)
    linarith
  have hD : 0 < cos (degreesToRadians 89) * cos (arcsin x) := mul_pos hcosP0 hcd0
  rw [div_lt_iff₀ hD]
  have hN : sin (degreesToRadians (-0.833)) - sin (degreesToRadians 89) * sin (arcsin x)
      ≤ -0.388 := by
    rw [hsd]
    nlinarith
  have hDu : cos (degreesToRadians 89) * cos (arcsin x) ≤ 0.01746 :=
    le_trans (by nlinarith [mul_le_mul_of_nonneg_left hcd1 hcosP0.le]) hcosP1
  linarith

/-- C6: polar out-of-domain witness for the sunrise equation.  On 2000-06-20
at latitude 89 (polar day), longitude 0, the argument handed to acos in
Astronomy::sunrise's hour-angle computation is strictly below -1; the source
applies acos to it with no clamp and no error (C acos returns NaN there, and
the rise and set Julian dates are computed from it). -/
theorem sunriseHourAngleArg_out_of_domain :
    sunriseHourAngleArg 2000 6 20 89 0 < -1 := by
  have hn : (⌈julianDate 2000 6 20 0 0 0 - 2451545 + 69.184 / 86400⌉ : ℤ) = 171 := by
    rw [show julianDate 2000 6 20 0 0 0 = 2451715.5 from by
      unfold julianDate
      rw [show julianDay 2000 6 20 = 2451716 from by decide]
      norm_num]
    rw [Int.ceil_eq_iff]
    norm_num
  have hm : modulo (357.5291 + 0.98560028 * (((171 : ℤ) : ℝ) - 0 / 360)) 360
      = 166.06674788 := by
    unfold modulo
    rw [show (⌊(357.5291 + 0.98560028 * (((171 : ℤ) : ℝ) - 0 / 360)) / 360⌋ : ℤ) = 1 from by
      rw [Int.floor_eq_iff]
      push_cast
      norm_num]
    push_cast
    norm_num
  have hs1 : -1 ≤ sin (degreesToRadians 166.06674788) := neg_one_le_sin _
  have hs2 : sin (degreesToRadians 166.06674788) ≤ 1 := sin_le_one _
  have hs3 : -1 ≤ sin (2 * degreesToRadians 166.06674788) := neg_one_le_sin _
  have hs4 : sin (2 * degreesToRadians 166.06674788) ≤ 1 := sin_le_one _
  have hs5 : -1 ≤ sin (3 * degreesToRadians 166.06674788) := neg_one_le_sin _
  have hs6 : sin (3 * degreesToRadians 166.06674788) ≤ 1 := sin_le_one _
  have hc1 : -1.9351 ≤ 1.9148 * sin (degreesToRadians 166.06674788) + 0.02 * sin (2 * degreesToRadians 166.06674788) + 0.0003 * sin (3 * degreesToRadians 166.06674788) := by nlinarith
  have hc2 : (1.9148 * sin (degreesToRadians 166.06674788) + 0.02 * sin (2 * degreesToRadians 166.06674788) + 0.0003 * sin (3 * degreesToRadians 166.06674788)) ≤ 1.9351 := by nlinarith
  have hlam : modulo (166.06674788 + (1.9148 * sin (degreesToRadians 166.06674788) + 0.02 * sin (2 * degreesToRadians 166.06674788) + 0.0003 * sin (3 * degreesToRadians 166.06674788)) + 180 + 102.9372) 360
      = 166.06674788 + (1.9148 * sin (degreesToRadians 166.06674788) + 0.02 * sin (2 * degreesToRadians 166.06674788) + 0.0003 * sin (3 * degreesToRadians 166.06674788)) + 180 + 102.9372 - 360 := by
    unfold modulo
    rw [show (⌊(166.06674788 + (1.9148 * sin (degreesToRadians 166.06674788) + 0.02 * sin (2 * degreesToRadians 166.06674788) + 0.0003 * sin (3 * degreesToRadians 166.06674788)) + 180 + 102.9372) / 360⌋ : ℤ) = 1 from by
      rw [Int.floor_eq_iff]
      push_cast
      constructor
      · rw [le_div_iff₀ (by norm_num : (0 : ℝ) < 360)]
        linarith
      · rw [div_lt_iff₀ (by norm_num : (0 : ℝ) < 360)]
        linarith]
    push_cast
    ring
  simp only [sunriseHourAngleArg, hn, hm]
  rw [hlam]
  apply sunrise_polar_core
  · linarith
  · linarith

/-! Helper evaluations for claim C5 (galactic round trip). -/

theorem equatorialToGalactic_at_sixhours : equatorialToGalactic (192.8594813 / 15 + 6) 0 = (33, 0) := by
  have hpl : 3.141592 < π := pi_gt_3141592
  have hpu : π < 3.141593 := pi_lt_3141593
  have hdiff : degreesToRadians ((192.8594813 / 15 + 6) * 15) - degreesToRadians (192.8594813 / 15 * 15) = π / 2 := by
    unfold degreesToRadians
    ring
  have hcosngp : 0 < cos (degreesToRadians 27.1282511) := by
    apply cos_pos_of_le_one
    unfold degreesToRadians
    rw [abs_le]
    constructor <;> nlinarith
  have hd0 : degreesToRadians 0 = 0 := by unfold degreesToRadians; ring
  have hat : atan2 0 (cos (degreesToRadians 27.1282511)) = 0 := by
    unfold atan2
    rw [if_pos hcosngp]
    rw [zero_div, Real.arctan_zero]
  simp only [equatorialToGalactic, ngpRa, ngpDec]
  rw [hdiff, hd0]
  rw [Real.cos_pi_div_two, Real.sin_pi_div_two, Real.sin_zero, Real.cos_zero]
  simp only [mul_zero, mul_one, one_mul, zero_mul, add_zero, zero_add, sub_zero,
    Real.arcsin_zero, Real.sin_zero]
  rw [hat]
  rw [show radiansToDegrees 0 = 0 from by unfold radiansToDegrees; norm_num]
  norm_num

set_option maxHeartbeats 1600000 in
theorem galacticToEquatorial_dec_bounds :
    1 / 20 < (galacticToEquatorial 33 0).2 ∧ (galacticToEquatorial 33 0).2 < 2 / 25 := by
  have hpl : 3.141592 < π := pi_gt_3141592
  have hpu : π < 3.141593 := pi_lt_3141593
  have hd0 : degreesToRadians 0 = 0 := by unfold degreesToRadians; ring
  have hdel : degreesToRadians 33 - degreesToRadians 122.93129 = -(89.93129 * π / 180) := by
    unfold degreesToRadians
    ring
  have hcosv : cos (89.93129 * π / 180) = sin (0.06871 * π / 180) := by
    rw [← Real.sin_pi_div_two_sub]
    congr 1
    ring
  -- bounds for sin (0.06871 * pi / 180)
  have hw1 : (0.0011992 : ℝ) ≤ 0.06871 * π / 180 := by nlinarith
  have hw2 : (0.06871 : ℝ) * π / 180 ≤ 0.0011993 := by nlinarith
  have hsw2 : sin (0.06871 * π / 180) ≤ 0.0011993 :=
    le_trans (sin_le (by positivity)) hw2
  have hsw1 : (0.0011991 : ℝ) ≤ sin (0.06871 * π / 180) := by
    have hc := sin_gt_sub_cube (show (0:ℝ) < 0.06871 * π / 180 by linarith)
      (show (0.06871 : ℝ) * π / 180 ≤ 1 by linarith)
    have hcube : (0.06871 * π / 180) ^ 3 ≤ 0.0011993 ^ 3 :=
      pow_le_pow_left₀ (by linarith) hw2 3
    nlinarith
  -- bounds for cos (degreesToRadians 27.1282511)
  have hth1 : (0.4734772 : ℝ) ≤ degreesToRadians 27.1282511 := by
    unfold degreesToRadians
    nlinarith
  have hth2 : degreesToRadians 27.1282511 ≤ 0.4734775 := by
    unfold degreesToRadians
    nlinarith
  have hthabs : |degreesToRadians 27.1282511| ≤ 1 := by
    rw [abs_le]
    constructor <;> linarith
  have hcb := Real.cos_bound hthabs
  have hcb2 := abs_sub_le_iff.mp hcb
  have hthnn : (0 : ℝ) ≤ degreesToRadians 27.1282511 := by linarith
  have hsq1 : degreesToRadians 27.1282511 ^ 2 ≤ 0.4734775 ^ 2 :=
    pow_le_pow_left₀ hthnn hth2 2
  have hsq2 : (0.4734772 : ℝ) ^ 2 ≤ degreesToRadians 27.1282511 ^ 2 := by
    nlinarith
  have hq4 : degreesToRadians 27.1282511 ^ 4 ≤ 0.4734775 ^ 4 :=
    pow_le_pow_left₀ hthnn hth2 4
  have habs4 : |degreesToRadians 27.1282511| ^ 4 = degreesToRadians 27.1282511 ^ 4 := by
    rw [abs_of_nonneg hthnn]
  have hcos1 : (0.8852 : ℝ) ≤ cos (degreesToRadians 27.1282511) := by
    rw [habs4] at hcb2
    nlinarith [hcb2.2]
  have hcos2 : cos (degreesToRadians 27.1282511) ≤ 0.8906 := by
    rw [habs4] at hcb2
    nlinarith [hcb2.1]
  -- the arcsin argument
  set X := cos (degreesToRadians 27.1282511) * sin (0.06871 * π / 180) with hX
  have hX1 : (0.0010614 : ℝ) ≤ X := by rw [hX]; nlinarith
  have hX2 : X ≤ 0.0010682 := by rw [hX]; nlinarith
  -- arcsin bounds
  have hu0 : 0 < arcsin X := arcsin_pos.mpr (by linarith)
  have hus : sin (arcsin X) = X := sin_arcsin (by linarith) (by linarith)
  have hul : X ≤ arcsin X := by
    have := sin_le hu0.le
    rw [hus] at this
    exact this
  have hu01 : arcsin X ≤ 0.1 := by
    by_contra hcon
    push_neg at hcon
    have hle : arcsin X ≤ π / 2 := arcsin_le_pi_div_two X
    have hmono : sin 0.1 < sin (arcsin X) := by
      apply strictMonoOn_sin
      · constructor <;> [linarith; linarith]
      · constructor <;> [linarith; linarith]
      · exact hcon
    have hs01 : (0.09975 : ℝ) < sin 0.1 := by
      have := sin_gt_sub_cube (show (0:ℝ) < 0.1 by norm_num) (show (0.1:ℝ) ≤ 1 by norm_num)
      nlinarith
    rw [hus] at hmono
    linarith
  have huu : arcsin X ≤ 0.0010709 := by
    have hc := sin_gt_sub_cube hu0 (by linarith : arcsin X ≤ 1)
    rw [hus] at hc
    have hcube : arcsin X ^ 3 ≤ 0.01 * arcsin X := by
      have h1 : arcsin X ^ 2 ≤ 0.01 := by nlinarith
      nlinarith
    nlinarith
  -- assemble
  have hproj : (galacticToEquatorial 33 0).2
      = radiansToDegrees (arcsin X) := by
    simp only [galacticToEquatorial, ngpRa, ngpDec]
    rw [hd0, hdel, Real.cos_neg, hcosv]
    rw [Real.sin_zero, Real.cos_zero]
    simp only [zero_mul, one_mul, zero_add]
  rw [hproj]
  unfold radiansToDegrees
  constructor
  · rw [lt_div_iff₀ pi_pos]
    nlinarith
  · rw [div_lt_iff₀ pi_pos]
    nlinarith

/-- C5 counterexample: the input RA = 192.8594813/15 + 6 decimal hours,
Dec = 0 is a valid equatorial coordinate well away from the celestial and
galactic poles (equatorialToGalactic maps it exactly to galactic longitude
33, latitude 0); applying galacticToEquatorial to that image returns a
declination greater than 0.05 degrees instead of the original 0, so the
round trip does not return the original RA/Dec within epsilon. -/
theorem galactic_roundtrip_counterexample :
    1 / 20 < (galacticToEquatorial
        (equatorialToGalactic (192.8594813 / 15 + 6) 0).1
        (equatorialToGalactic (192.8594813 / 15 + 6) 0).2).2 := by
  rw [equatorialToGalactic_at_sixhours]
  exact galacticToEquatorial_dec_bounds.1

/-- C5 amended: the round trip is not exact; the forward transform adds the
ascending-node constant 33.0 while the inverse subtracts the NCP galactic
longitude 122.93129 (which is not 90 + 33 = 123), so the composition
deviates by about the 0.069-degree mismatch between the constants.  At
RA = 192.8594813/15 + 6 h, Dec = 0 the round-trip declination lies strictly
between 0.05 and 0.08 degrees (about 0.061 degrees) instead of returning 0. -/
theorem galactic_roundtrip_deviation :
    1 / 20 < (galacticToEquatorial
        (equatorialToGalactic (192.8594813 / 15 + 6) 0).1
        (equatorialToGalactic (192.8594813 / 15 + 6) 0).2).2
    ∧ (galacticToEquatorial
        (equatorialToGalactic (192.8594813 / 15 + 6) 0).1
        (equatorialToGalactic (192.8594813 / 15 + 6) 0).2).2 < 2 / 25 := by
  rw [equatorialToGalactic_at_sixhours]
  exact galacticToEquatorial_dec_bounds

end Astro
